import Mathlib

/-
Verification of the attendance administration backend (SMPN 28 Jakarta):
shallow embedding of the floor-assignment, attendance-aggregation and
report-formatting logic, together with the persistence handlers for
attendance records and the client-side upsert discipline.
-/

namespace Absensi

/-- Attendance status enum, from attendanceStatusSchema in server/src/schema.ts. -/
inductive AttendanceStatus where
  | present
  | sick
  | permission
  | absent
deriving DecidableEq, Repr

/-- One row of the attendance_records table, from attendanceRecordSchema.
Dates are modelled as opaque Nat timestamps; nullable notes as Option String. -/
structure AttendanceRecord where
  id : Nat
  duty_schedule_id : Nat
  student_id : Nat
  status : AttendanceStatus
  is_late : Bool
  notes : Option String
  created_at : Nat
  updated_at : Nat
deriving DecidableEq, Repr

/-- The summary object built by getAttendanceSummary. -/
structure AttendanceSummary where
  total : Nat
  present : Nat
  sick : Nat
  permission : Nat
  absent : Nat
  late : Nat
deriving DecidableEq, Repr

/-- Body of the records.forEach loop in getAttendanceSummary: the switch on
record.status followed by the is_late check. -/
def summarizeStep (s : AttendanceSummary) (r : AttendanceRecord) : AttendanceSummary :=
  let s1 :=
    match r.status with
    | .present => { s with present := s.present + 1 }
    | .sick => { s with sick := s.sick + 1 }
    | .permission => { s with permission := s.permission + 1 }
    | .absent => { s with absent := s.absent + 1 }
  if r.is_late then { s1 with late := s1.late + 1 } else s1

/-- getAttendanceSummary from the attendance handler, over the list of records
fetched for the duty schedule: total is set to records.length up front, the
other counters start at 0 and are incremented by the forEach loop. -/
def getAttendanceSummary (records : List AttendanceRecord) : AttendanceSummary :=
  records.foldl summarizeStep
    { total := records.length, present := 0, sick := 0, permission := 0, absent := 0, late := 0 }

lemma summarizeStep_fields (s : AttendanceSummary) (r : AttendanceRecord) :
    summarizeStep s r =
      { total := s.total
        present := s.present + (if r.status = .present then 1 else 0)
        sick := s.sick + (if r.status = .sick then 1 else 0)
        permission := s.permission + (if r.status = .permission then 1 else 0)
        absent := s.absent + (if r.status = .absent then 1 else 0)
        late := s.late + (if r.is_late then 1 else 0) } := by
  cases h : r.status <;> cases hl : r.is_late <;>
    simp [summarizeStep, h, hl]

lemma foldl_summarizeStep (rs : List AttendanceRecord) (s : AttendanceSummary) :
    rs.foldl summarizeStep s =
      { total := s.total
        present := s.present + rs.countP (fun r => r.status = .present)
        sick := s.sick + rs.countP (fun r => r.status = .sick)
        permission := s.permission + rs.countP (fun r => r.status = .permission)
        absent := s.absent + rs.countP (fun r => r.status = .absent)
        late := s.late + rs.countP (fun r => r.is_late) } := by
  induction rs generalizing s with
  | nil => simp [List.countP_nil]
  | cons r rs ih =>
      rw [List.foldl_cons, ih, summarizeStep_fields]
      simp only [List.countP_cons, AttendanceSummary.mk.injEq]
      cases h : r.status <;> cases hl : r.is_late <;> simp [h, hl] <;> omega

lemma getAttendanceSummary_total (rs : List AttendanceRecord) :
    (getAttendanceSummary rs).total = rs.length := by
  rw [getAttendanceSummary, foldl_summarizeStep]

lemma getAttendanceSummary_present (rs : List AttendanceRecord) :
    (getAttendanceSummary rs).present = rs.countP (fun r => r.status = .present) := by
  rw [getAttendanceSummary, foldl_summarizeStep]; simp

lemma getAttendanceSummary_sick (rs : List AttendanceRecord) :
    (getAttendanceSummary rs).sick = rs.countP (fun r => r.status = .sick) := by
  rw [getAttendanceSummary, foldl_summarizeStep]; simp

lemma getAttendanceSummary_permission (rs : List AttendanceRecord) :
    (getAttendanceSummary rs).permission = rs.countP (fun r => r.status = .permission) := by
  rw [getAttendanceSummary, foldl_summarizeStep]; simp

lemma getAttendanceSummary_absent (rs : List AttendanceRecord) :
    (getAttendanceSummary rs).absent = rs.countP (fun r => r.status = .absent) := by
  rw [getAttendanceSummary, foldl_summarizeStep]; simp

lemma getAttendanceSummary_late (rs : List AttendanceRecord) :
    (getAttendanceSummary rs).late = rs.countP (fun r => r.is_late) := by
  rw [getAttendanceSummary, foldl_summarizeStep]; simp

/-- C1: getAttendanceSummary counts exactly: total is the number of records,
each status counter is the number of records with that status, and late counts
records with is_late = true independently of status (a non-present late record
still increments late, witnessed by the countP characterization); the summary
of the empty list is all-zero. -/
theorem C1_summary_counts (rs : List AttendanceRecord) :
    (getAttendanceSummary rs).total = rs.length ∧
    (getAttendanceSummary rs).present = rs.countP (fun r => r.status = .present) ∧
    (getAttendanceSummary rs).sick = rs.countP (fun r => r.status = .sick) ∧
    (getAttendanceSummary rs).permission = rs.countP (fun r => r.status = .permission) ∧
    (getAttendanceSummary rs).absent = rs.countP (fun r => r.status = .absent) ∧
    (getAttendanceSummary rs).late = rs.countP (fun r => r.is_late) ∧
    getAttendanceSummary [] = (⟨0, 0, 0, 0, 0, 0⟩ : AttendanceSummary) := by
  refine ⟨getAttendanceSummary_total rs, getAttendanceSummary_present rs,
    getAttendanceSummary_sick rs, getAttendanceSummary_permission rs,
    getAttendanceSummary_absent rs, getAttendanceSummary_late rs, rfl⟩

lemma countP_status_partition (rs : List AttendanceRecord) :
    rs.countP (fun r => r.status = .present) + rs.countP (fun r => r.status = .sick) +
      rs.countP (fun r => r.status = .permission) + rs.countP (fun r => r.status = .absent) =
      rs.length := by
  induction rs with
  | nil => simp [List.countP_nil]
  | cons r rs ih =>
      simp only [List.countP_cons, List.length_cons]
      cases h : r.status <;> simp [h] <;> omega

/-- C8: every summary satisfies present + sick + permission + absent = total and
late ≤ total, since each record carries exactly one of the four statuses. -/
theorem C8_summary_invariants (rs : List AttendanceRecord) :
    (getAttendanceSummary rs).present + (getAttendanceSummary rs).sick +
      (getAttendanceSummary rs).permission + (getAttendanceSummary rs).absent =
      (getAttendanceSummary rs).total ∧
    (getAttendanceSummary rs).late ≤ (getAttendanceSummary rs).total := by
  rw [getAttendanceSummary_total, getAttendanceSummary_present, getAttendanceSummary_sick,
    getAttendanceSummary_permission, getAttendanceSummary_absent, getAttendanceSummary_late]
  exact ⟨countP_status_partition rs, List.countP_le_length _⟩

/-- One row of the students table, class_level and class_section stored as the
strings of the zod enums (grades "7"/"8"/"9", sections "A".."G"). -/
structure Student where
  id : Nat
  name : String
  class_level : String
  class_section : String
deriving DecidableEq, Repr

/-- The class-level catalogue of classLevelSchema. -/
def classLevels : List String := ["7", "8", "9"]

/-- The class-section catalogue of classSectionSchema. -/
def classSections : List String := ["A", "B", "C", "D", "E", "F", "G"]

/-- Sections A-F, the inArray list used for floors 2 and 3 in getStudentsByFloor. -/
def sectionsAF : List String := ["A", "B", "C", "D", "E", "F"]

/-- Sections A-G, the inArray list used for grade 7 on floor 4. -/
def sectionsAG : List String := ["A", "B", "C", "D", "E", "F", "G"]

/-- Floor-2 roster condition of getStudentsByFloor: grade 9, sections A-F. -/
def floor2Pred (grade sec : String) : Bool :=
  grade == "9" && sectionsAF.contains sec

/-- Floor-3 roster condition of getStudentsByFloor: grade 8 sections A-F, or
grade 9 section G. -/
def floor3Pred (grade sec : String) : Bool :=
  (grade == "8" && sectionsAF.contains sec) || (grade == "9" && sec == "G")

/-- Floor-4 roster condition of getStudentsByFloor: grade 7 sections A-G, or
grade 8 section G. -/
def floor4Pred (grade sec : String) : Bool :=
  (grade == "7" && sectionsAG.contains sec) || (grade == "8" && sec == "G")

/-- getStudentsByFloor from the student-management handler: the switch on the
floor string selects one of the three roster conditions and filters the
students table by it; any other floor throws. -/
def getStudentsByFloor (floor : String) (students : List Student) :
    Except String (List Student) :=
  if floor = "2" then
    .ok (students.filter (fun st => floor2Pred st.class_level st.class_section))
  else if floor = "3" then
    .ok (students.filter (fun st => floor3Pred st.class_level st.class_section))
  else if floor = "4" then
    .ok (students.filter (fun st => floor4Pred st.class_level st.class_section))
  else
    .error ("Invalid floor: " ++ floor ++ ". Valid floors are 2, 3, 4")

/-- Modelled from the spec: resolveFloor(grade, section) of the FloorMapper is
not a named function in the source (the mapping exists only as the three
roster conditions of getStudentsByFloor); following section 4.1 it returns the
floor whose catalogue rule covers the pair and fails with InvalidClassError on
any uncovered combination. -/
def resolveFloor (grade sec : String) : Except String String :=
  if floor2Pred grade sec then .ok "2"
  else if floor3Pred grade sec then .ok "3"
  else if floor4Pred grade sec then .ok "4"
  else .error "InvalidClassError"

/-- C2: the three floor predicates match the fixed catalogue exactly
(floor 2 is grade 9 sections A-F; floor 3 is grade 8 sections A-F or 9G;
floor 4 is grade 7 sections A-G or 8G), and in particular 9G resolves to
floor 3, 8G to floor 4, 7A to floor 4, and 9A to floor 2. -/
theorem C2_floor_catalogue :
    (∀ g s : String, floor2Pred g s = true ↔ (g = "9" ∧ s ∈ sectionsAF)) ∧
    (∀ g s : String, floor3Pred g s = true ↔
      ((g = "8" ∧ s ∈ sectionsAF) ∨ (g = "9" ∧ s = "G"))) ∧
    (∀ g s : String, floor4Pred g s = true ↔
      ((g = "7" ∧ s ∈ sectionsAG) ∨ (g = "8" ∧ s = "G"))) ∧
    resolveFloor "9" "G" = .ok "3" ∧ resolveFloor "8" "G" = .ok "4" ∧
    resolveFloor "7" "A" = .ok "4" ∧ resolveFloor "9" "A" = .ok "2" := by
  refine ⟨?_, ?_, ?_, rfl, rfl, rfl, rfl⟩ <;>
    intro g s <;> simp [floor2Pred, floor3Pred, floor4Pred]

/-- C3: over the full catalogue (grades 7-9 crossed with sections A-G) the
three floor predicates are a partition: every pair satisfies exactly one. -/
theorem C3_floor_partition :
    ∀ g ∈ classLevels, ∀ s ∈ classSections,
      ((if floor2Pred g s then 1 else 0) + (if floor3Pred g s then 1 else 0) +
        (if floor4Pred g s then 1 else 0)) = 1 := by
  decide

/-- C3 witness at class 8G: exactly one floor predicate holds. -/
theorem C3_floor_partition_witness :
    ((if floor2Pred "8" "G" then 1 else 0) + (if floor3Pred "8" "G" then 1 else 0) +
      (if floor4Pred "8" "G" then 1 else 0)) = 1 :=
  C3_floor_partition "8" (by decide) "G" (by decide)

/-- C5: an out-of-catalogue query fails rather than defaulting: resolveFloor
on grade 5 fails with InvalidClassError, and getStudentsByFloor on any floor
outside 2, 3, 4 throws the invalid-floor error for every student list instead
of returning a roster. -/
theorem C5_invalid_class_errors :
    resolveFloor "5" "A" = .error "InvalidClassError" ∧
    ∀ floor : String, floor ∉ (["2", "3", "4"] : List String) →
      ∀ students : List Student,
        getStudentsByFloor floor students =
          .error ("Invalid floor: " ++ floor ++ ". Valid floors are 2, 3, 4") := by
  refine ⟨rfl, ?_⟩
  intro floor hfl students
  simp only [List.mem_cons, List.not_mem_nil, or_false, not_or] at hfl
  rw [getStudentsByFloor, if_neg hfl.1, if_neg hfl.2.1, if_neg hfl.2.2]

/-- C5 witness: floor "5" is rejected with the invalid-floor error. -/
theorem C5_invalid_class_errors_witness :
    getStudentsByFloor "5" [] = .error "Invalid floor: 5. Valid floors are 2, 3, 4" :=
  C5_invalid_class_errors.2 "5" (by decide) []

/-- One row of the duty_schedules table. -/
structure DutySchedule where
  id : Nat
  teacher_id : Nat
  duty_date : Nat
  floor : String
deriving DecidableEq, Repr

/-- The relational store owned by the persistence collaborator: the tables the
attendance handlers touch, plus the serial primary-key counter for
attendance_records. -/
structure DB where
  dutySchedules : List DutySchedule
  students : List Student
  attendanceRecords : List AttendanceRecord
  nextId : Nat
deriving Repr

/-- createAttendanceRecordInputSchema: notes is nullable and optional, so it is
a doubly optional string (none = field absent, some none = explicit null). -/
structure CreateAttendanceRecordInput where
  duty_schedule_id : Nat
  student_id : Nat
  status : AttendanceStatus
  is_late : Bool
  notes : Option (Option String)
deriving Repr

/-- updateAttendanceRecordInputSchema: every field but id optional, notes also
nullable. -/
structure UpdateAttendanceRecordInput where
  id : Nat
  status : Option AttendanceStatus
  is_late : Option Bool
  notes : Option (Option String)
deriving Repr

/-- The JavaScript expression (input.notes || null): an absent field, an
explicit null and the empty string (falsy) all collapse to null. -/
def jsNotesOrNull (notes : Option (Option String)) : Option String :=
  match notes with
  | some (some s) => if s = "" then none else some s
  | _ => none

/-- createAttendanceRecord from the attendance handler: verify the duty
schedule exists, verify the student exists, then insert the record with notes
normalized by (input.notes || null); each failed lookup throws and leaves the
store untouched. The fresh serial id and the insertion timestamp come from the
store. -/
def createAttendanceRecord (db : DB) (input : CreateAttendanceRecordInput) (now : Nat) :
    Except String AttendanceRecord × DB :=
  if (db.dutySchedules.filter (fun d => d.id == input.duty_schedule_id)).length = 0 then
    (.error "Duty schedule not found", db)
  else if (db.students.filter (fun st => st.id == input.student_id)).length = 0 then
    (.error "Student not found", db)
  else
    let newRecord : AttendanceRecord :=
      { id := db.nextId
        duty_schedule_id := input.duty_schedule_id
        student_id := input.student_id
        status := input.status
        is_late := input.is_late
        notes := jsNotesOrNull input.notes
        created_at := now
        updated_at := now }
    (.ok newRecord,
      { db with attendanceRecords := db.attendanceRecords ++ [newRecord]
                nextId := db.nextId + 1 })

/-- The update object built by updateAttendanceRecord: updated_at always set
to the current time, and each of status / is_late / notes copied onto the row
only when the input field is not undefined. -/
def applyUpdate (r : AttendanceRecord) (input : UpdateAttendanceRecordInput) (now : Nat) :
    AttendanceRecord :=
  let r1 := { r with updated_at := now }
  let r2 := match input.status with
    | some s => { r1 with status := s }
    | none => r1
  let r3 := match input.is_late with
    | some b => { r2 with is_late := b }
    | none => r2
  match input.notes with
  | some v => { r3 with notes := v }
  | none => r3

/-- updateAttendanceRecord from the attendance handler: look the record up by
id (throwing when absent), then update the matching row with the provided
fields and return the updated row. -/
def updateAttendanceRecord (db : DB) (input : UpdateAttendanceRecordInput) (now : Nat) :
    Except String AttendanceRecord × DB :=
  match db.attendanceRecords.find? (fun r => r.id == input.id) with
  | none => (.error "Attendance record not found", db)
  | some r =>
      let newRecords :=
        db.attendanceRecords.map
          (fun x => if x.id == input.id then applyUpdate x input now else x)
      (.ok (applyUpdate r input now), { db with attendanceRecords := newRecords })

/-- C6: createAttendanceRecord with a dangling duty_schedule_id or student_id
throws the corresponding not-found error and leaves the store unchanged; with
both references valid it inserts exactly the returned record. -/
theorem C6_create_checks_references (db : DB) (input : CreateAttendanceRecordInput) (now : Nat) :
    ((∀ d ∈ db.dutySchedules, d.id ≠ input.duty_schedule_id) →
      createAttendanceRecord db input now = (.error "Duty schedule not found", db)) ∧
    ((∃ d ∈ db.dutySchedules, d.id = input.duty_schedule_id) →
      (∀ st ∈ db.students, st.id ≠ input.student_id) →
      createAttendanceRecord db input now = (.error "Student not found", db)) ∧
    ((∃ d ∈ db.dutySchedules, d.id = input.duty_schedule_id) →
      (∃ st ∈ db.students, st.id = input.student_id) →
      ∃ r, (createAttendanceRecord db input now).1 = .ok r ∧
        (createAttendanceRecord db input now).2.attendanceRecords =
          db.attendanceRecords ++ [r]) := by
  have hlen : ∀ {α : Type} (l : List α) (p : α → Bool),
      (l.filter p).length = 0 ↔ ∀ x ∈ l, ¬ p x := by
    intro α l p
    rw [List.length_eq_zero, List.filter_eq_nil_iff]
  refine ⟨?_, ?_, ?_⟩
  · intro h
    rw [createAttendanceRecord, if_pos]
    rw [hlen]
    intro d hd
    simp only [beq_iff_eq]
    exact h d hd
  · rintro ⟨d, hd, hid⟩ h
    have h1 : ¬ (db.dutySchedules.filter (fun d => d.id == input.duty_schedule_id)).length = 0 := by
      rw [hlen]
      push_neg
      exact ⟨d, hd, by simp [hid]⟩
    rw [createAttendanceRecord, if_neg h1, if_pos]
    rw [hlen]
    intro st hst
    simp only [beq_iff_eq]
    exact h st hst
  · rintro ⟨d, hd, hdid⟩ ⟨st, hst, hsid⟩
    have h1 : ¬ (db.dutySchedules.filter (fun d => d.id == input.duty_schedule_id)).length = 0 := by
      rw [hlen]
      push_neg
      exact ⟨d, hd, by simp [hdid]⟩
    have h2 : ¬ (db.students.filter (fun st => st.id == input.student_id)).length = 0 := by
      rw [hlen]
      push_neg
      exact ⟨st, hst, by simp [hsid]⟩
    rw [createAttendanceRecord, if_neg h1, if_neg h2]
    exact ⟨_, rfl, rfl⟩

/-- C6 witness: on an empty store the create fails with the duty-schedule
error; with both references present it inserts the returned record. -/
theorem C6_create_checks_references_witness :
    (createAttendanceRecord ⟨[], [], [], 1⟩ ⟨7, 3, .present, false, none⟩ 0 =
      (.error "Duty schedule not found", ⟨[], [], [], 1⟩)) ∧
    (createAttendanceRecord ⟨[⟨7, 1, 0, "2"⟩], [], [], 1⟩ ⟨7, 3, .present, false, none⟩ 0 =
      (.error "Student not found", ⟨[⟨7, 1, 0, "2"⟩], [], [], 1⟩)) ∧
    ∃ r, (createAttendanceRecord ⟨[⟨7, 1, 0, "2"⟩], [⟨3, "Budi", "9", "A"⟩], [], 1⟩
            ⟨7, 3, .present, false, none⟩ 0).1 = .ok r ∧
      (createAttendanceRecord ⟨[⟨7, 1, 0, "2"⟩], [⟨3, "Budi", "9", "A"⟩], [], 1⟩
            ⟨7, 3, .present, false, none⟩ 0).2.attendanceRecords = [] ++ [r] := by
  refine ⟨?_, ?_, ?_⟩
  · exact (C6_create_checks_references ⟨[], [], [], 1⟩ ⟨7, 3, .present, false, none⟩ 0).1
      (by intro d hd; simp at hd)
  · exact (C6_create_checks_references ⟨[⟨7, 1, 0, "2"⟩], [], [], 1⟩
      ⟨7, 3, .present, false, none⟩ 0).2.1 ⟨⟨7, 1, 0, "2"⟩, by simp, rfl⟩
      (by intro st hst; simp at hst)
  · exact (C6_create_checks_references ⟨[⟨7, 1, 0, "2"⟩], [⟨3, "Budi", "9", "A"⟩], [], 1⟩
      ⟨7, 3, .present, false, none⟩ 0).2.2 ⟨⟨7, 1, 0, "2"⟩, by simp, rfl⟩
      ⟨⟨3, "Budi", "9", "A"⟩, by simp, rfl⟩

lemma applyUpdate_fields (x : AttendanceRecord) (input : UpdateAttendanceRecordInput)
    (now : Nat) :
    (applyUpdate x input now).id = x.id ∧
    (applyUpdate x input now).duty_schedule_id = x.duty_schedule_id ∧
    (applyUpdate x input now).student_id = x.student_id ∧
    (applyUpdate x input now).created_at = x.created_at ∧
    (applyUpdate x input now).status = input.status.getD x.status ∧
    (applyUpdate x input now).is_late = input.is_late.getD x.is_late ∧
    (applyUpdate x input now).notes = input.notes.getD x.notes ∧
    (applyUpdate x input now).updated_at = now := by
  obtain ⟨i, st, il, nt⟩ := input
  cases st <;> cases il <;> cases nt <;> simp [applyUpdate, Option.getD]

/-- C9: createAttendanceRecord normalizes notes with (input.notes || null), so
absent, null and empty-string notes are all stored as null; while
updateAttendanceRecord copies any non-undefined notes verbatim, so updating
with the empty string stores the empty string — the two operations disagree on
empty-string notes. -/
theorem C9_notes_normalization (db : DB) (now : Nat) :
    (∀ (cin : CreateAttendanceRecordInput) (r : AttendanceRecord),
      (cin.notes = none ∨ cin.notes = some none ∨ cin.notes = some (some "")) →
      (createAttendanceRecord db cin now).1 = .ok r → r.notes = none) ∧
    (∀ (uin : UpdateAttendanceRecordInput) (r : AttendanceRecord),
      uin.notes = some (some "") →
      (updateAttendanceRecord db uin now).1 = .ok r → r.notes = some "") := by
  constructor
  · intro cin r hn hok
    rw [createAttendanceRecord] at hok
    split_ifs at hok
    have hr : r.notes = jsNotesOrNull cin.notes := by
      simp only [Except.ok.injEq] at hok
      rw [← hok]
    rcases hn with h | h | h <;> rw [hr, h] <;> simp [jsNotesOrNull]
  · intro uin r hn hok
    rw [updateAttendanceRecord] at hok
    cases hfind : db.attendanceRecords.find? (fun x => x.id == uin.id) with
    | none => rw [hfind] at hok; simp at hok
    | some x =>
        rw [hfind] at hok
        simp only [Except.ok.injEq] at hok
        rw [← hok, applyUpdate]
        simp [hn]

/-- C9 witness: creating with empty-string notes stores null, updating the
created record with empty-string notes stores the empty string. -/
theorem C9_notes_normalization_witness :
    ((createAttendanceRecord ⟨[⟨7, 1, 0, "2"⟩], [⟨3, "Budi", "9", "A"⟩], [], 1⟩
        ⟨7, 3, .present, false, some (some "")⟩ 0).1 = .ok
        ⟨1, 7, 3, .present, false, none, 0, 0⟩ →
      (⟨1, 7, 3, .present, false, none, 0, 0⟩ : AttendanceRecord).notes = none) ∧
    ((updateAttendanceRecord ⟨[], [], [⟨1, 7, 3, .present, false, none, 0, 0⟩], 2⟩
        ⟨1, none, none, some (some "")⟩ 5).1 = .ok
        ⟨1, 7, 3, .present, false, some "", 0, 5⟩ →
      (⟨1, 7, 3, .present, false, some "", 0, 5⟩ : AttendanceRecord).notes = some "") := by
  constructor
  · exact (C9_notes_normalization ⟨[⟨7, 1, 0, "2"⟩], [⟨3, "Budi", "9", "A"⟩], [], 1⟩ 0).1
      ⟨7, 3, .present, false, some (some "")⟩ ⟨1, 7, 3, .present, false, none, 0, 0⟩
      (Or.inr (Or.inr rfl))
  · exact (C9_notes_normalization ⟨[], [], [⟨1, 7, 3, .present, false, none, 0, 0⟩], 2⟩ 5).2
      ⟨1, none, none, some (some "")⟩ ⟨1, 7, 3, .present, false, some "", 0, 5⟩ rfl

/-- C10: updateAttendanceRecord keeps id, duty_schedule_id, student_id and
created_at of the updated record, retains any omitted field, sets exactly the
supplied fields, and stamps updated_at with the current time. -/
theorem C10_update_frame (db : DB) (input : UpdateAttendanceRecordInput) (now : Nat)
    (old r : AttendanceRecord)
    (hfind : db.attendanceRecords.find? (fun x => x.id == input.id) = some old)
    (hok : (updateAttendanceRecord db input now).1 = .ok r) :
    r.id = old.id ∧ r.duty_schedule_id = old.duty_schedule_id ∧
    r.student_id = old.student_id ∧ r.created_at = old.created_at ∧
    r.status = input.status.getD old.status ∧
    r.is_late = input.is_late.getD old.is_late ∧
    r.notes = input.notes.getD old.notes ∧
    r.updated_at = now := by
  rw [updateAttendanceRecord, hfind] at hok
  simp only [Except.ok.injEq] at hok
  rw [← hok]
  exact applyUpdate_fields old input now

/-- C10 witness: a concrete update supplying only is_late keeps every other
field of the stored record and refreshes updated_at. -/
theorem C10_update_frame_witness :
    let old : AttendanceRecord := ⟨1, 7, 3, .sick, false, some "izin", 0, 0⟩
    let r := applyUpdate old ⟨1, none, some true, none⟩ 9
    r.id = old.id ∧ r.duty_schedule_id = old.duty_schedule_id ∧
    r.student_id = old.student_id ∧ r.created_at = old.created_at ∧
    r.status = (none : Option AttendanceStatus).getD old.status ∧
    r.is_late = (some true).getD old.is_late ∧
    r.notes = (none : Option (Option String)).getD old.notes ∧
    r.updated_at = 9 :=
  C10_update_frame ⟨[], [], [⟨1, 7, 3, .sick, false, some "izin", 0, 0⟩], 2⟩
    ⟨1, none, some true, none⟩ 9 ⟨1, 7, 3, .sick, false, some "izin", 0, 0⟩
    (applyUpdate ⟨1, 7, 3, .sick, false, some "izin", 0, 0⟩ ⟨1, none, some true, none⟩ 9)
    rfl rfl

/-- The duty-schedule-with-teacher join row used by generateAttendanceReport:
teacher name and NIP identifier, the rendered duty date, and the floor. -/
structure ReportDutyInfo where
  teacher_name : String
  teacher_nip : String
  duty_date_str : String
  floor : String
deriving DecidableEq, Repr

/-- The attendance-record-with-student join row used by the report's detailed
list. -/
structure ReportEntry where
  student_name : String
  class_level : String
  class_section : String
  record : AttendanceRecord
deriving DecidableEq, Repr

/-- The string value of the status enum, as interpolated into the report. -/
def statusString : AttendanceStatus → String
  | .present => "present"
  | .sick => "sick"
  | .permission => "permission"
  | .absent => "absent"

/-- One line of the report's detailed list: student name, class, status, a
" (Late)" suffix when is_late, and " - notes" when notes is truthy (JavaScript
truthiness: null and the empty string both render nothing). -/
def detailLine (e : ReportEntry) : String :=
  e.student_name ++ " (" ++ e.class_level ++ e.class_section ++ ") - " ++
    statusString e.record.status ++
    (if e.record.is_late then " (Late)" else "") ++
    (match e.record.notes with
      | some s => if s = "" then "" else " - " ++ s
      | none => "")

/-- The fixed header and summary block of generateAttendanceReport, with the
six counts taken from getAttendanceSummary over the session's records. -/
def reportHeader (duty : ReportDutyInfo) (summary : AttendanceSummary) : List String :=
  ["ATTENDANCE REPORT",
   "================",
   "Teacher: " ++ duty.teacher_name ++ " (" ++ duty.teacher_nip ++ ")",
   "Date: " ++ duty.duty_date_str,
   "Floor: " ++ duty.floor,
   "",
   "SUMMARY:",
   "Total Students: " ++ toString summary.total,
   "Present: " ++ toString summary.present,
   "Sick: " ++ toString summary.sick,
   "Permission: " ++ toString summary.permission,
   "Absent: " ++ toString summary.absent,
   "Late: " ++ toString summary.late,
   "",
   "DETAILED LIST:",
   "=============="]

/-- The line list built by generateAttendanceReport: the fixed header block,
then the forEach loop pushes one detail line per joined attendance row. -/
def reportLines (duty : ReportDutyInfo) (entries : List ReportEntry) : List String :=
  entries.foldl (fun acc e => acc ++ [detailLine e])
    (reportHeader duty (getAttendanceSummary (entries.map (fun e => e.record))))

/-- generateAttendanceReport's returned text: the lines joined by newlines. -/
def generateAttendanceReport (duty : ReportDutyInfo) (entries : List ReportEntry) : String :=
  String.intercalate "\n" (reportLines duty entries)

lemma foldl_push_eq_append_map {α β : Type} (f : α → β) (l : List α) (acc : List β) :
    l.foldl (fun acc e => acc ++ [f e]) acc = acc ++ l.map f := by
  induction l generalizing acc with
  | nil => simp
  | cons x xs ih => simp [ih]

/-- C4: the report is the header naming the teacher (name and NIP), the date
and the floor, followed by the six summary counts in the fixed order total,
present, sick, permission, absent, late, followed by exactly one detail line
per attendance entry in input order (name, class, status, " (Late)" suffix
when late, notes when present). -/
theorem C4_report_structure (duty : ReportDutyInfo) (entries : List ReportEntry) :
    reportLines duty entries =
      reportHeader duty (getAttendanceSummary (entries.map (fun e => e.record))) ++
        entries.map detailLine ∧
    (reportLines duty entries).length = 16 + entries.length ∧
    (reportLines duty entries).take 16 =
      ["ATTENDANCE REPORT",
       "================",
       "Teacher: " ++ duty.teacher_name ++ " (" ++ duty.teacher_nip ++ ")",
       "Date: " ++ duty.duty_date_str,
       "Floor: " ++ duty.floor,
       "",
       "SUMMARY:",
       "Total Students: " ++
         toString (getAttendanceSummary (entries.map (fun e => e.record))).total,
       "Present: " ++ toString (getAttendanceSummary (entries.map (fun e => e.record))).present,
       "Sick: " ++ toString (getAttendanceSummary (entries.map (fun e => e.record))).sick,
       "Permission: " ++
         toString (getAttendanceSummary (entries.map (fun e => e.record))).permission,
       "Absent: " ++ toString (getAttendanceSummary (entries.map (fun e => e.record))).absent,
       "Late: " ++ toString (getAttendanceSummary (entries.map (fun e => e.record))).late,
       "",
       "DETAILED LIST:",
       "=============="] ∧
    (reportLines duty entries).drop 16 = entries.map detailLine := by
  have h : reportLines duty entries =
      reportHeader duty (getAttendanceSummary (entries.map (fun e => e.record))) ++
        entries.map detailLine :=
    foldl_push_eq_append_map detailLine entries _
  have hlen : (reportHeader duty
      (getAttendanceSummary (entries.map (fun e => e.record)))).length = 16 := rfl
  refine ⟨h, ?_, ?_, ?_⟩
  · rw [h, List.length_append, hlen, List.length_map]
  · rw [h, ← hlen, List.take_left]
    rfl
  · rw [h, ← hlen, List.drop_left]

/-- Client-side state of AttendanceManagement for the selected duty schedule:
the loaded attendance records plus the store's serial primary-key counter (the
server assigns ids from it on create). -/
structure ClientState where
  records : List AttendanceRecord
  nextId : Nat
deriving Repr

/-- getAttendanceRecord in AttendanceManagement.tsx: the first loaded record
whose student_id matches, or null. -/
def getAttendanceRecord (records : List AttendanceRecord) (studentId : Nat) :
    Option AttendanceRecord :=
  records.find? (fun r => r.student_id == studentId)

/-- The arguments of one handleAttendanceChange call, together with the server
timestamp of the resulting write. -/
structure SaveOp where
  studentId : Nat
  status : AttendanceStatus
  isLate : Bool
  notes : Option String
  now : Nat
deriving Repr

/-- The client-side (notes || null) normalization: an omitted or empty-string
notes argument is sent as null. -/
def jsClientNotes (notes : Option String) : Option String :=
  match notes with
  | some s => if s = "" then none else some s
  | none => none

/-- handleAttendanceChange in AttendanceManagement.tsx: look the student's
record up in the loaded list; when found, send an update for that record's id
and replace it in the list with the server's updated row; otherwise send a
create and append the server's new row. -/
def handleAttendanceChange (dutyScheduleId : Nat) (st : ClientState) (op : SaveOp) :
    ClientState :=
  match getAttendanceRecord st.records op.studentId with
  | some existing =>
      let updated : AttendanceRecord :=
        { existing with
          status := op.status
          is_late := op.isLate
          notes := jsClientNotes op.notes
          updated_at := op.now }
      { st with records :=
          st.records.map (fun r => if r.id == updated.id then updated else r) }
  | none =>
      let newRecord : AttendanceRecord :=
        { id := st.nextId
          duty_schedule_id := dutyScheduleId
          student_id := op.studentId
          status := op.status
          is_late := op.isLate
          notes := jsClientNotes op.notes
          created_at := op.now
          updated_at := op.now }
      { records := st.records ++ [newRecord], nextId := st.nextId + 1 }

/-- A sequence of saves, applied in order. -/
def applySaves (dutyScheduleId : Nat) (st : ClientState) (ops : List SaveOp) : ClientState :=
  ops.foldl (handleAttendanceChange dutyScheduleId) st

/-- At most one attendance entry per student in the loaded session list. -/
def atMostOnePerStudent (records : List AttendanceRecord) : Prop :=
  ∀ sid : Nat, records.countP (fun r => r.student_id == sid) ≤ 1

/-- The store-backed well-formedness of the client state: the per-student
bound, pairwise-distinct primary keys, and every key below the serial
counter. -/
def clientInvariant (st : ClientState) : Prop :=
  atMostOnePerStudent st.records ∧
  st.records.Pairwise (fun a b => a.id ≠ b.id) ∧
  ∀ r ∈ st.records, r.id < st.nextId

lemma pairwise_ne_id_eq {l : List AttendanceRecord}
    (hp : l.Pairwise (fun a b => a.id ≠ b.id)) :
    ∀ a ∈ l, ∀ b ∈ l, a.id = b.id → a = b := by
  intro a ha b hb hab
  by_contra hne
  exact List.Pairwise.forall (fun x y hxy => Ne.symm hxy) hp ha hb hne hab

lemma handleAttendanceChange_invariant (dutyScheduleId : Nat) (st : ClientState)
    (op : SaveOp) (h : clientInvariant st) :
    clientInvariant (handleAttendanceChange dutyScheduleId st op) := by
  obtain ⟨hcount, hpair, hbound⟩ := h
  rw [handleAttendanceChange]
  cases hfind : getAttendanceRecord st.records op.studentId with
  | some existing =>
      have hmem : existing ∈ st.records := List.mem_of_find?_eq_some hfind
      have hsid : existing.student_id = op.studentId := by
        have := List.find?_some hfind
        simpa using this
      simp only []
      set updated : AttendanceRecord :=
        { existing with
          status := op.status
          is_late := op.isLate
          notes := jsClientNotes op.notes
          updated_at := op.now } with hupd
      set f : AttendanceRecord → AttendanceRecord :=
        fun r => if r.id == updated.id then updated else r with hf
      have hid : ∀ r : AttendanceRecord, (f r).id = r.id := by
        intro r
        rw [hf]
        by_cases hc : r.id == updated.id
        · simp only [hc, if_pos]
          exact (beq_iff_eq.mp hc).symm
        · simp [hc]
      have hps : ∀ r ∈ st.records, (f r).student_id = r.student_id := by
        intro r hr
        rw [hf]
        by_cases hc : r.id == updated.id
        · have hre : r = existing := by
            refine pairwise_ne_id_eq hpair r hr existing hmem ?_
            have : r.id = updated.id := beq_iff_eq.mp hc
            simpa [hupd] using this
          simp only [hc, if_pos]
          rw [hre]
        · simp [hc]
      refine ⟨?_, ?_, ?_⟩
      · intro sid
        have hmapcount : (st.records.map f).countP (fun r => r.student_id == sid) =
            st.records.countP (fun r => r.student_id == sid) := by
          rw [List.countP_map]
          refine List.countP_congr ?_
          intro r hr
          simp only [Function.comp]
          rw [hps r hr]
        rw [hmapcount]
        exact hcount sid
      · rw [List.pairwise_map]
        refine hpair.imp ?_
        intro a b hab
        rw [hid a, hid b]
        exact hab
      · intro r hr
        obtain ⟨x, hx, hxr⟩ := List.mem_map.mp hr
        rw [← hxr, hid x]
        exact hbound x hx
  | none =>
      have hnone : ∀ r ∈ st.records, ¬ r.student_id == op.studentId := by
        rw [getAttendanceRecord, List.find?_eq_none] at hfind
        exact hfind
      simp only []
      refine ⟨?_, ?_, ?_⟩
      · intro sid
        rw [List.countP_append]
        by_cases hc : op.studentId = sid
        · have hz : st.records.countP (fun r => r.student_id == sid) = 0 := by
            rw [List.countP_eq_zero]
            intro r hr
            rw [← hc]
            exact hnone r hr
          rw [hz, Nat.zero_add]
          exact le_trans (List.countP_le_length _) (by simp)
        · simp only [List.countP_cons, List.countP_nil]
          simp only [Nat.zero_add]
          rw [if_neg (by simp [hc])]
          rw [Nat.add_zero]
          exact hcount sid
      · rw [List.pairwise_append]
        refine ⟨hpair, List.pairwise_singleton _ _, ?_⟩
        intro a ha b hb
        simp only [List.mem_singleton] at hb
        rw [hb]
        exact Nat.ne_of_lt (hbound a ha)
      · intro r hr
        rcases List.mem_append.mp hr with hr | hr
        · exact Nat.lt_succ_of_lt (hbound r hr)
        · simp only [List.mem_singleton] at hr
          rw [hr]
          exact Nat.lt_succ_self _

/-- C7: the lookup-then-create-or-update discipline of handleAttendanceChange
(update to the found record's id when the student already has a record, create
only when none exists) preserves the store invariant; in particular, starting
from a well-formed state with at most one record per student, any sequence of
saves leaves at most one record per student. -/
theorem C7_upsert_at_most_one (dutyScheduleId : Nat) (st : ClientState)
    (h : clientInvariant st) (ops : List SaveOp) :
    clientInvariant (applySaves dutyScheduleId st ops) ∧
    atMostOnePerStudent (applySaves dutyScheduleId st ops).records := by
  have hinv : clientInvariant (applySaves dutyScheduleId st ops) := by
    rw [applySaves]
    induction ops generalizing st with
    | nil => exact h
    | cons op ops ih =>
        rw [List.foldl_cons]
        exact ih _ (handleAttendanceChange_invariant dutyScheduleId st op h)
  exact ⟨hinv, hinv.1⟩

/-- C7 witness: two saves from the empty state (a create for student 3 and a
subsequent save for the same student, which updates) keep the invariant. -/
theorem C7_upsert_at_most_one_witness :
    clientInvariant (applySaves 7 ⟨[], 0⟩
      [⟨3, .present, false, none, 1⟩, ⟨3, .sick, true, some "demam", 2⟩]) ∧
    atMostOnePerStudent (applySaves 7 ⟨[], 0⟩
      [⟨3, .present, false, none, 1⟩, ⟨3, .sick, true, some "demam", 2⟩]).records :=
  C7_upsert_at_most_one 7 ⟨[], 0⟩
    ⟨fun sid => by simp [List.countP_nil], List.Pairwise.nil, by simp⟩
    [⟨3, .present, false, none, 1⟩, ⟨3, .sick, true, some "demam", 2⟩]

end Absensi
